import Mathlib

/-!
Shallow embedding of `backend/core/code_executor.py` (class `CodeExecutor`):
the language registry, the static validator `_validate_code`, and the
execution pipeline `execute_code` / `_execute_with_subprocess`.

External effects (temporary-directory creation, file writing, the two
`subprocess.run` calls, `shutil.rmtree`, and the wall clock) are modelled by
an oracle `Env` that fixes the outcome of each primitive; the pipeline is a
pure function of the oracle.  A `Trace` records which effects actually
happened (directory created, file written and at which path, compile/run
process spawned, directory still existing after cleanup).  Python regular
expressions are embedded as explicit scanners over `List Char`, restricted
to ASCII character classes (`\w`, `\s`), which is exact on ASCII input.
-/

namespace DevSensei

/-- ASCII word character, the `\w` class of the validator's regexes. -/
def isWordChar (c : Char) : Bool := c.isAlpha || c.isDigit || c == '_'

/-- ASCII whitespace, the `\s` class: space, tab, newline, CR, VT, FF. -/
def isSpaceChar (c : Char) : Bool :=
  c == ' ' || c == '\t' || c == '\n' || c == '\r' || c == '\x0b' || c == '\x0c'

/-- Character allowed in a Java import path: `[\w.]`. -/
def isPkgChar (c : Char) : Bool := isWordChar c || c == '.'

/-- Character allowed in a C/C++ header name: `[\w./]`. -/
def isHdrChar (c : Char) : Bool := isWordChar c || c == '.' || c == '/'

/-- Match a literal character sequence; return the remaining input. -/
def matchLit : List Char → List Char → Option (List Char)
  | [], cs => some cs
  | _ :: _, [] => none
  | l :: ls, c :: cs => if l == c then matchLit ls cs else none

/-- Greedy one-or-more match of a character class (`X+`): the captured
characters and the remaining input, or `none` if no character matches. -/
def matchPlus (p : Char → Bool) (cs : List Char) : Option (List Char × List Char) :=
  match cs.takeWhile p with
  | [] => none
  | x => some (x, cs.dropWhile p)

/-- One step of `re.findall`: try the pattern at the current position;
`some` returns the capture and the input after the whole match. -/
def scanAux {α : Type} (step : List Char → Option (α × List Char)) :
    Nat → List Char → List α
  | 0, _ => []
  | _ + 1, [] => []
  | fuel + 1, c :: cs =>
    match step (c :: cs) with
    | some (a, rest) => a :: scanAux step fuel rest
    | none => scanAux step fuel cs

/-- `re.findall`: non-overlapping leftmost matches, scanning left to right.
Every pattern used below consumes at least one character on success, so
fuel `length` is never exhausted before the input is. -/
def reFindall {α : Type} (step : List Char → Option (α × List Char)) (s : String) : List α :=
  scanAux step s.data.length s.data

/-- Auxiliary recursion for `reSearch`. -/
def searchAux {α : Type} (step : List Char → Option (α × List Char)) :
    Nat → List Char → Option α
  | 0, _ => none
  | _ + 1, [] => none
  | fuel + 1, c :: cs =>
    match step (c :: cs) with
    | some (a, _) => some a
    | none => searchAux step fuel cs

/-- `re.search`: the leftmost match, if any. -/
def reSearch {α : Type} (step : List Char → Option (α × List Char)) (s : String) : Option α :=
  searchAux step s.data.length s.data

/-- One alternative of the Python import pattern: `import\s+(\w+)`. -/
def pyImportStep1 (cs : List Char) : Option (String × List Char) :=
  match matchLit "import".data cs with
  | none => none
  | some r1 =>
    match matchPlus isSpaceChar r1 with
    | none => none
    | some (_, r2) =>
      match matchPlus isWordChar r2 with
      | none => none
      | some (w, r3) => some (String.mk w, r3)

/-- The other alternative: `from\s+(\w+)\s+import`. -/
def pyImportStep2 (cs : List Char) : Option (String × List Char) :=
  match matchLit "from".data cs with
  | none => none
  | some r1 =>
    match matchPlus isSpaceChar r1 with
    | none => none
    | some (_, r2) =>
      match matchPlus isWordChar r2 with
      | none => none
      | some (w, r3) =>
        match matchPlus isSpaceChar r3 with
        | none => none
        | some (_, r4) =>
          match matchLit "import".data r4 with
          | none => none
          | some r5 => some (String.mk w, r5)

/-- The full pattern `import\s+(\w+)|from\s+(\w+)\s+import`: left alternative
preferred, as in Python regex alternation. -/
def pyImportStep (cs : List Char) : Option (String × List Char) :=
  match pyImportStep1 cs with
  | some res => some res
  | none => pyImportStep2 cs

/-- The Java import pattern `import\s+([\w.]+)`. -/
def javaImportStep (cs : List Char) : Option (String × List Char) :=
  match matchLit "import".data cs with
  | none => none
  | some r1 =>
    match matchPlus isSpaceChar r1 with
    | none => none
    | some (_, r2) =>
      match matchPlus isPkgChar r2 with
      | none => none
      | some (w, r3) => some (String.mk w, r3)

/-- The C/C++ include pattern `#include\s+[<"]([\w./]+)[>"]`. -/
def cIncludeStep (cs : List Char) : Option (String × List Char) :=
  match matchLit "#include".data cs with
  | none => none
  | some r1 =>
    match matchPlus isSpaceChar r1 with
    | none => none
    | some (_, r2) =>
      match r2 with
      | [] => none
      | o :: r3 =>
        if o == '<' || o == '"' then
          match matchPlus isHdrChar r3 with
          | none => none
          | some (w, r4) =>
            match r4 with
            | [] => none
            | cl :: r5 => if cl == '>' || cl == '"' then some (String.mk w, r5) else none
        else none

/-- The Java public-class pattern `public\s+class\s+(\w+)`. -/
def javaClassStep (cs : List Char) : Option (String × List Char) :=
  match matchLit "public".data cs with
  | none => none
  | some r1 =>
    match matchPlus isSpaceChar r1 with
    | none => none
    | some (_, r2) =>
      match matchLit "class".data r2 with
      | none => none
      | some r3 =>
        match matchPlus isSpaceChar r3 with
        | none => none
        | some (_, r4) =>
          match matchPlus isWordChar r4 with
          | none => none
          | some (w, r5) => some (String.mk w, r5)

/-- `import_pattern.findall(code)` of the Python branch of `_validate_code`,
with `module = imp[0] or imp[1]` already applied to each tuple. -/
def pythonImports (code : String) : List String := reFindall pyImportStep code

/-- `import_pattern.findall(code)` of the Java branch. -/
def javaImports (code : String) : List String := reFindall javaImportStep code

/-- `include_pattern.findall(code)` of the C/C++ branch. -/
def cIncludes (code : String) : List String := reFindall cIncludeStep code

/-- `re.search(r'public\s+class\s+(\w+)', code)` of the Java filename logic,
returning the captured class name. -/
def javaPublicClass (code : String) : Option String := reSearch javaClassStep code

/-- Substring occurrence, Python's `needle in hay` on strings. -/
def occursIn (needle : List Char) : List Char → Bool
  | [] => needle.isEmpty
  | c :: cs => (matchLit needle (c :: cs)).isSome || occursIn needle cs

/-- Python `needle in hay` for strings. -/
def strContains (hay needle : String) : Bool := occursIn needle.data hay.data

/-- `str.lower`, embedded over ASCII (exact on ASCII language names). -/
def pyLower (s : String) : String := String.mk (s.data.map Char.toLower)

/-- One entry of `self.language_config`: per-language build/run commands and
security policy.  Python's sets become lists; only membership is used. -/
structure LanguageConfig where
  extension : String
  command : List String
  compile_command : List String := []
  needs_compile : Bool := false
  setup_commands : List String := []
  allowed_imports : List String := []
  allowed_globals : List String := []
  allowed_packages : List String := []
  allowed_headers : List String := []
  allowed_crates : List String := []
  allowed_requires : List String := []
  allowed_extensions : List String := []
deriving Repr, DecidableEq

/-- The `'python'` registry entry (`command` is `[sys.executable]`). -/
def pythonConfig : LanguageConfig :=
  { extension := ".py", command := ["sys.executable"],
    allowed_imports := ["math", "random", "datetime", "json", "collections", "itertools", "functools"] }

/-- The `'javascript'` registry entry. -/
def javascriptConfig : LanguageConfig :=
  { extension := ".js", command := ["node"],
    allowed_globals := ["console", "Math", "Date", "JSON", "Array", "Object", "String", "Number"] }

/-- The `'typescript'` registry entry. -/
def typescriptConfig : LanguageConfig :=
  { extension := ".ts", command := ["npx", "ts-node"],
    setup_commands := ["npm install -g typescript ts-node"],
    allowed_globals := ["console", "Math", "Date", "JSON", "Array", "Object", "String", "Number"] }

/-- The `'java'` registry entry. -/
def javaConfig : LanguageConfig :=
  { extension := ".java", compile_command := ["javac"], command := ["java"],
    needs_compile := true,
    allowed_packages := ["java.util", "java.lang", "java.math", "java.time"] }

/-- The `'cpp'` registry entry. -/
def cppConfig : LanguageConfig :=
  { extension := ".cpp", compile_command := ["g++", "-o", "program"], command := ["./program"],
    needs_compile := true,
    allowed_headers := ["iostream", "string", "vector", "map", "set", "algorithm"] }

/-- The `'c'` registry entry. -/
def cConfig : LanguageConfig :=
  { extension := ".c", compile_command := ["gcc", "-o", "program"], command := ["./program"],
    needs_compile := true,
    allowed_headers := ["stdio.h", "stdlib.h", "string.h", "math.h", "time.h"] }

/-- The `'go'` registry entry. -/
def goConfig : LanguageConfig :=
  { extension := ".go", command := ["go", "run"],
    allowed_packages := ["fmt", "math", "time", "strings", "strconv"] }

/-- The `'rust'` registry entry. -/
def rustConfig : LanguageConfig :=
  { extension := ".rs", compile_command := ["rustc", "-o", "program"], command := ["./program"],
    needs_compile := true, allowed_crates := ["std"] }

/-- The `'ruby'` registry entry. -/
def rubyConfig : LanguageConfig :=
  { extension := ".rb", command := ["ruby"],
    allowed_requires := ["json", "time", "math", "set"] }

/-- The `'php'` registry entry. -/
def phpConfig : LanguageConfig :=
  { extension := ".php", command := ["php"],
    allowed_extensions := ["json", "date", "math"] }

/-- `self.language_config` as a lookup keyed by (lowercase) language name;
`none` is Python's `KeyError` / `language not in self.language_config`. -/
def language_config : String → Option LanguageConfig
  | "python" => some pythonConfig
  | "javascript" => some javascriptConfig
  | "typescript" => some typescriptConfig
  | "java" => some javaConfig
  | "cpp" => some cppConfig
  | "c" => some cConfig
  | "go" => some goConfig
  | "rust" => some rustConfig
  | "ruby" => some rubyConfig
  | "php" => some phpConfig
  | _ => none

/-- The `dangerous_funcs` set of the Python branch, in display order (the
source iterates a Python `set`, whose order is unspecified; which message is
reported when several match is therefore implementation-defined, but whether
the code is rejected is not). -/
def dangerous_funcs : List String := ["eval", "exec", "os.system", "subprocess.call"]

/-- The `dangerous_globals` set of the JavaScript/TypeScript branch. -/
def dangerous_globals : List String := ["process", "require", "eval", "Function"]

/-- `CodeExecutor._validate_code(code, language)`: the pair
`(is_valid, error_msg)`.  A registry miss is the `KeyError` swallowed by the
handler at the end of `_validate_code`. -/
def validate_code_inner (code language : String) : Bool × String :=
  match language_config language with
  | none => (false, "Validation error: " ++ "'" ++ language ++ "'")
  | some config =>
    if language == "python" then
      match (pythonImports code).find? (fun m => !(config.allowed_imports.contains m)) with
      | some m => (false, "Import of " ++ m ++ " not allowed")
      | none =>
        match dangerous_funcs.find? (fun f => strContains code f) with
        | some f => (false, "Use of " ++ f ++ " not allowed")
        | none => (true, "")
    else if language == "javascript" || language == "typescript" then
      match dangerous_globals.find? (fun g => strContains code g) with
      | some g => (false, "Use of " ++ g ++ " not allowed")
      | none => (true, "")
    else if language == "java" then
      match (javaImports code).find?
          (fun imp => !(config.allowed_packages.any (fun pkg => pkg.data.isPrefixOf imp.data))) with
      | some imp => (false, "Import of " ++ imp ++ " not allowed")
      | none => (true, "")
    else if language == "cpp" || language == "c" then
      match (cIncludes code).find? (fun inc => !(config.allowed_headers.contains inc)) with
      | some inc => (false, "Include of " ++ inc ++ " not allowed")
      | none => (true, "")
    else (true, "")

/-- Outcome of one `subprocess.run` call, fixed by the oracle: normal
completion with exit code and captured streams, `subprocess.TimeoutExpired`,
or any other raised exception (spawn failure etc.). -/
inductive RunOutcome
  | completed (returncode : Int) (stdout stderr : String)
  | timedOut
  | fault (msg : String)
deriving Repr, DecidableEq

/-- Oracle for the external effects of `_execute_with_subprocess`:
`tempfile.mkdtemp`, the source-file write, the compile and run
`subprocess.run` calls, `shutil.rmtree`, and the elapsed wall-clock values
read at each `time.time()` subtraction site. -/
structure Env where
  mkdtemp : Except String String
  writeFile : Except String Unit
  compileProc : RunOutcome
  runProc : RunOutcome
  rmtreeOk : Bool
  tCompileFail : Nat
  tRun : Nat
  tExc : Nat
deriving Repr

/-- Observable effects of one call: directory lifecycle, file write, and
which processes were spawned. -/
structure Trace where
  dirCreated : Bool := false
  dirExists : Bool := false
  writtenFile : Option String := none
  compileSpawned : Bool := false
  runSpawned : Bool := false
deriving Repr, DecidableEq

/-- The dictionary returned by `execute_code`: output, error,
execution_time, status. -/
structure ExecResult where
  output : String
  error : String
  execution_time : Nat
  status : String
deriving Repr, DecidableEq

/-- The executor's constructor state: `timeout` seconds and `max_memory`. -/
structure CodeExecutor where
  timeout : Nat
  max_memory : Nat
deriving Repr, DecidableEq

/-- A Python exception escaping the `try` block of
`_execute_with_subprocess`: `subprocess.TimeoutExpired`, or any other
exception with its message and whether `start_time` was already bound
(which the generic handler tests with `'start_time' in locals()`). -/
inductive PyExc
  | timeoutExpired
  | other (msg : String) (startTimeSet : Bool)
deriving Repr, DecidableEq

/-- The run phase: the second `subprocess.run` and the classification
`'success' if result.returncode == 0 else 'error'`. -/
def runPhase (env : Env) (t : Trace) : Except PyExc ExecResult × Trace :=
  let t' := { t with runSpawned := true }
  match env.runProc with
  | .fault msg => (.error (.other msg true), t')
  | .timedOut => (.error .timeoutExpired, t')
  | .completed rc out err =>
    (.ok { output := out, error := err, execution_time := env.tRun,
           status := if rc == 0 then "success" else "error" }, t')

/-- The `try` block of `_execute_with_subprocess`: directory creation, the
Java filename special case, the file write, the compile phase (when
`needs_compile`), then the run phase.  `Except.error` is an exception
propagating to the handlers. -/
def subprocessBody (env : Env) (code language : String) (config : LanguageConfig) :
    Except PyExc ExecResult × Trace :=
  match env.mkdtemp with
  | .error msg => (.error (.other msg false), {})
  | .ok temp_dir =>
    let t0 : Trace := { dirCreated := true, dirExists := true }
    match
      (if language == "java" then
        match javaPublicClass code with
        | some class_name => .ok (temp_dir ++ "/" ++ class_name ++ ".java")
        | none => .error ()
      else
        .ok (temp_dir ++ "/main" ++ config.extension) : Except Unit String) with
    | .error _ =>
      (.ok { output := "", error := "No public class found in Java code",
             execution_time := 0, status := "error" }, t0)
    | .ok file_path =>
      match env.writeFile with
      | .error msg => (.error (.other msg false), t0)
      | .ok _ =>
        let t1 := { t0 with writtenFile := some file_path }
        if config.needs_compile then
          let t2 := { t1 with compileSpawned := true }
          match env.compileProc with
          | .fault msg => (.error (.other msg true), t2)
          | .timedOut => (.error .timeoutExpired, t2)
          | .completed rc _ cerr =>
            if rc != 0 then
              (.ok { output := "", error := "Compilation error: " ++ cerr,
                     execution_time := env.tCompileFail,
                     status := "compilation_error" }, t2)
            else
              runPhase env t2
        else
          runPhase env t1

/-- `CodeExecutor._execute_with_subprocess`: the `try` body, the
`except subprocess.TimeoutExpired` and generic `except Exception` handlers,
and the `finally` cleanup (`shutil.rmtree` attempted when the directory was
created, its own failure swallowed and never altering the result). -/
def execWithSubprocess (ex : CodeExecutor) (env : Env) (code language : String)
    (config : LanguageConfig) : ExecResult × Trace :=
  let (body, t) := subprocessBody env code language config
  let result :=
    match body with
    | .ok r => r
    | .error .timeoutExpired =>
      { output := "", error := "Execution timed out after " ++ toString ex.timeout ++ " seconds",
        execution_time := ex.timeout, status := "timeout" }
    | .error (.other msg started) =>
      { output := "", error := "Execution error: " ++ msg,
        execution_time := if started then env.tExc else 0, status := "error" }
  let t' :=
    if t.dirCreated && t.dirExists then
      (if env.rmtreeOk then { t with dirExists := false } else t)
    else t
  (result, t')

/-- `CodeExecutor.execute_code(code, language, input_data)`: lowercase the
language, reject unknown languages, validate, then hand off to
`_execute_with_subprocess`. -/
def execute_code (ex : CodeExecutor) (env : Env) (code language input_data : String) :
    ExecResult × Trace :=
  let language := pyLower language
  match language_config language with
  | none =>
    ({ output := "", error := "Unsupported language: " ++ language,
       execution_time := 0, status := "error" }, {})
  | some config =>
    let v := validate_code_inner code language
    if v.fst then
      execWithSubprocess ex env code language config
    else
      ({ output := "", error := v.snd, execution_time := 0,
         status := "validation_error" }, {})

/-- `CodeExecutor.validate_code`, the public wrapper. -/
def validate_code (code language : String) : String × List String :=
  let v := validate_code_inner code language
  (if v.fst then "valid" else "invalid", if v.fst then [] else [v.snd])

/-- `CodeExecutor.get_supported_languages`. -/
def get_supported_languages : List String :=
  ["python", "javascript", "typescript", "java", "cpp", "c", "go", "rust", "ruby", "php"]

/-- Oracle sample: every effect succeeds and the run phase exits with code 1
and stderr `boom`. -/
def envSample : Env :=
  { mkdtemp := .ok "/tmp/workspace", writeFile := .ok (),
    compileProc := .completed 0 "" "", runProc := .completed 1 "" "boom",
    rmtreeOk := true, tCompileFail := 3, tRun := 5, tExc := 7 }

/-- Oracle sample: the compile phase exits non-zero with a diagnostic on
stderr. -/
def envCompileFail : Env :=
  { mkdtemp := .ok "/tmp/workspace", writeFile := .ok (),
    compileProc := .completed 1 "" "error: expected semicolon", runProc := .completed 0 "" "",
    rmtreeOk := true, tCompileFail := 2, tRun := 5, tExc := 7 }

/-- Oracle sample: the run phase exceeds the wall-clock limit
(`subprocess.TimeoutExpired`). -/
def envTimeout : Env :=
  { mkdtemp := .ok "/tmp/workspace", writeFile := .ok (),
    compileProc := .completed 0 "" "", runProc := .timedOut,
    rmtreeOk := true, tCompileFail := 3, tRun := 5, tExc := 7 }

theorem charLowerDef (d : Char) :
    d.toLower = if d.toNat ≥ 65 ∧ d.toNat ≤ 90 then Char.ofNat (d.toNat + 32) else d := rfl

theorem charLowerIdem (c : Char) : c.toLower.toLower = c.toLower := by
  rw [charLowerDef c]
  by_cases h : c.toNat ≥ 65 ∧ c.toNat ≤ 90
  · rw [if_pos h]
    have hv : Nat.isValidChar (c.toNat + 32) := Or.inl (by omega)
    have ht : (Char.ofNat (c.toNat + 32)).toNat = c.toNat + 32 := by
      rw [Char.ofNat, dif_pos hv]
      rfl
    rw [charLowerDef, ht, if_neg (by omega)]
  · rw [if_neg h, charLowerDef, if_neg h]

theorem pyLowerIdem (s : String) : pyLower (pyLower s) = pyLower s := by
  unfold pyLower
  congr 1
  rw [List.map_map]
  exact List.map_congr_left (fun c _ => charLowerIdem c)

theorem execute_code_valid (ex : CodeExecutor) (env : Env)
    (code language input_data : String) (config : LanguageConfig)
    (hcfg : language_config (pyLower language) = some config)
    (hval : (validate_code_inner code (pyLower language)).fst = true) :
    execute_code ex env code language input_data =
      execWithSubprocess ex env code (pyLower language) config := by
  simp only [execute_code, hcfg, hval, if_true]

theorem subprocessBody_run (env : Env) (code language : String) (config : LanguageConfig)
    (dir out err : String) (rc : Int)
    (hmk : env.mkdtemp = .ok dir)
    (hwr : env.writeFile = .ok ())
    (hjava : language = "java" → ∃ cn, javaPublicClass code = some cn)
    (hcomp : config.needs_compile = true → ∃ co ce, env.compileProc = .completed 0 co ce)
    (hrun : env.runProc = .completed rc out err) :
    (subprocessBody env code language config).1 =
      .ok { output := out, error := err, execution_time := env.tRun,
            status := if rc == 0 then "success" else "error" } ∧
    (subprocessBody env code language config).2.runSpawned = true ∧
    (subprocessBody env code language config).2.dirCreated = true ∧
    (subprocessBody env code language config).2.dirExists = true := by
  unfold subprocessBody
  rw [hmk]
  by_cases hj : language == "java"
  · obtain ⟨cn, hcn⟩ := hjava (by simpa using hj)
    simp only [hj, if_true, hcn, hwr]
    by_cases hc : config.needs_compile
    · obtain ⟨co, ce, hcp⟩ := hcomp hc
      simp [hc, hcp, runPhase, hrun]
    · simp [hc, runPhase, hrun]
  · simp only [hj, if_false, hwr]
    by_cases hc : config.needs_compile
    · obtain ⟨co, ce, hcp⟩ := hcomp hc
      simp [hc, hcp, runPhase, hrun]
    · simp [hc, runPhase, hrun]

theorem execWithSubprocess_result (ex : CodeExecutor) (env : Env)
    (code language : String) (config : LanguageConfig) :
    (execWithSubprocess ex env code language config).1 =
      (match (subprocessBody env code language config).1 with
       | .ok r => r
       | .error .timeoutExpired =>
         { output := "", error := "Execution timed out after " ++ toString ex.timeout ++ " seconds",
           execution_time := ex.timeout, status := "timeout" }
       | .error (.other msg started) =>
         { output := "", error := "Execution error: " ++ msg,
           execution_time := if started then env.tExc else 0, status := "error" }) := by
  unfold execWithSubprocess
  rfl

theorem execWithSubprocess_trace (ex : CodeExecutor) (env : Env)
    (code language : String) (config : LanguageConfig) :
    (execWithSubprocess ex env code language config).2 =
      (let t := (subprocessBody env code language config).2
       if t.dirCreated && t.dirExists then
         (if env.rmtreeOk then { t with dirExists := false } else t)
       else t) := by
  unfold execWithSubprocess
  rfl

theorem subprocessBody_compile_fail (env : Env) (code language : String) (config : LanguageConfig)
    (dir cout cerr : String) (rc : Int)
    (hmk : env.mkdtemp = .ok dir)
    (hwr : env.writeFile = .ok ())
    (hjava : language = "java" → ∃ cn, javaPublicClass code = some cn)
    (hnc : config.needs_compile = true)
    (hcp : env.compileProc = .completed rc cout cerr)
    (hrc : rc ≠ 0) :
    (subprocessBody env code language config).1 =
      .ok { output := "", error := "Compilation error: " ++ cerr,
            execution_time := env.tCompileFail, status := "compilation_error" } ∧
    (subprocessBody env code language config).2.runSpawned = false ∧
    (subprocessBody env code language config).2.dirCreated = true ∧
    (subprocessBody env code language config).2.dirExists = true := by
  unfold subprocessBody
  rw [hmk]
  by_cases hj : language == "java"
  · obtain ⟨cn, hcn⟩ := hjava (by simpa using hj)
    simp [hj, hcn, hwr, hnc, hcp, hrc]
  · simp [hj, hwr, hnc, hcp, hrc]

theorem subprocessBody_timeout (env : Env) (code language : String) (config : LanguageConfig)
    (dir : String)
    (hmk : env.mkdtemp = .ok dir)
    (hwr : env.writeFile = .ok ())
    (hjava : language = "java" → ∃ cn, javaPublicClass code = some cn)
    (htmo : (config.needs_compile = true ∧ env.compileProc = .timedOut) ∨
            (env.runProc = .timedOut ∧
             (config.needs_compile = true → ∃ co ce, env.compileProc = .completed 0 co ce))) :
    (subprocessBody env code language config).1 = .error .timeoutExpired := by
  unfold subprocessBody
  rw [hmk]
  by_cases hj : language == "java"
  · obtain ⟨cn, hcn⟩ := hjava (by simpa using hj)
    rcases htmo with ⟨hnc, hcp⟩ | ⟨hrun, hcomp⟩
    · simp [hj, hcn, hwr, hnc, hcp]
    · by_cases hc : config.needs_compile
      · obtain ⟨co, ce, hcp⟩ := hcomp hc
        simp [hj, hcn, hwr, hc, hcp, runPhase, hrun]
      · simp [hj, hcn, hwr, hc, runPhase, hrun]
  · rcases htmo with ⟨hnc, hcp⟩ | ⟨hrun, hcomp⟩
    · simp [hj, hwr, hnc, hcp]
    · by_cases hc : config.needs_compile
      · obtain ⟨co, ce, hcp⟩ := hcomp hc
        simp [hj, hwr, hc, hcp, runPhase, hrun]
      · simp [hj, hwr, hc, runPhase, hrun]

theorem subprocessBody_dir (env : Env) (code language : String) (config : LanguageConfig)
    (dir : String) (hmk : env.mkdtemp = .ok dir) :
    (subprocessBody env code language config).2.dirCreated = true ∧
    (subprocessBody env code language config).2.dirExists = true := by
  unfold subprocessBody runPhase
  rw [hmk]
  repeat' split
  all_goals simp_all

theorem execWithSubprocess_status (ex : CodeExecutor) (env : Env)
    (code language : String) (config : LanguageConfig) :
    (execWithSubprocess ex env code language config).1.status ∈
      (["success", "compilation_error", "timeout", "error"] : List String) := by
  rcases hm : env.mkdtemp with m0 | dir <;>
    rcases hw : env.writeFile with msg | u <;>
    by_cases hj : language == "java" <;>
    rcases hpc : javaPublicClass code with _ | cn <;>
    by_cases hnc : config.needs_compile <;>
    rcases hc : env.compileProc with ⟨rc, co, ce⟩ | _ | m <;>
    rcases hr : env.runProc with ⟨rc2, o2, e2⟩ | _ | m2 <;>
    try simp [execWithSubprocess, subprocessBody, runPhase, hm, hw, hj, hpc, hnc, hc, hr]
  all_goals try (split_ifs <;> simp)
  all_goals tauto

theorem subprocessBody_java (env : Env) (code : String) (config : LanguageConfig)
    (dir : String) (hmk : env.mkdtemp = .ok dir) :
    (∀ cn, javaPublicClass code = some cn → env.writeFile = .ok () →
      (subprocessBody env code "java" config).2.writtenFile = some (dir ++ "/" ++ cn ++ ".java")) ∧
    (javaPublicClass code = none →
      (subprocessBody env code "java" config).1 =
        .ok { output := "", error := "No public class found in Java code",
              execution_time := 0, status := "error" } ∧
      (subprocessBody env code "java" config).2.writtenFile = none) := by
  constructor
  · intro cn hcn hwr
    unfold subprocessBody runPhase
    rw [hmk]
    rcases hc : env.compileProc with ⟨rc, co, ce⟩ | _ | m <;>
      rcases hr : env.runProc with ⟨rc2, o2, e2⟩ | _ | m2 <;>
      by_cases hnc : config.needs_compile <;>
      try simp [hcn, hwr, hnc, hc, hr]
    all_goals try (split_ifs <;> simp)
  · intro hnone
    unfold subprocessBody
    rw [hmk]
    simp [hnone]

theorem execWithSubprocess_keeps_writtenFile (ex : CodeExecutor) (env : Env)
    (code language : String) (config : LanguageConfig) :
    (execWithSubprocess ex env code language config).2.writtenFile =
      (subprocessBody env code language config).2.writtenFile := by
  unfold execWithSubprocess
  repeat' split
  all_goals simp_all

theorem execWithSubprocess_rmtree_clean (ex : CodeExecutor) (env : Env)
    (code language : String) (config : LanguageConfig) (dir : String)
    (hmk : env.mkdtemp = .ok dir) (hrm : env.rmtreeOk = true) :
    (execWithSubprocess ex env code language config).2.dirCreated = true ∧
    (execWithSubprocess ex env code language config).2.dirExists = false := by
  obtain ⟨h1, h2⟩ := subprocessBody_dir env code language config dir hmk
  unfold execWithSubprocess
  simp only [h1, h2, hrm, Bool.and_self, if_true]
  constructor
  · simp [h1]
  · simp

theorem execWithSubprocess_result_ignores_rmtree (ex : CodeExecutor) (env : Env)
    (code language : String) (config : LanguageConfig) (b : Bool) :
    (execWithSubprocess ex { env with rmtreeOk := b } code language config).1 =
    (execWithSubprocess ex env code language config).1 := by
  rw [execWithSubprocess_result, execWithSubprocess_result]
  rfl

theorem matchLit_append (l r : List Char) : matchLit l (l ++ r) = some r := by
  induction l with
  | nil => rfl
  | cons c cs ih => simp [matchLit, ih]

theorem occursIn_append (pre n : List Char) : occursIn n (pre ++ n) = true := by
  induction pre with
  | nil =>
    cases n with
    | nil => rfl
    | cons c cs =>
      have h := matchLit_append (c :: cs) []
      rw [List.append_nil] at h
      simp [occursIn, h]
  | cons c pre ih => simp [occursIn, ih]

theorem strContains_append (pre n : String) : strContains (pre ++ n) n = true := by
  unfold strContains
  have : (pre ++ n).data = pre.data ++ n.data := String.data_append pre n
  rw [this]
  exact occursIn_append pre.data n.data

theorem execWithSubprocess_keeps_runSpawned (ex : CodeExecutor) (env : Env)
    (code language : String) (config : LanguageConfig) :
    (execWithSubprocess ex env code language config).2.runSpawned =
      (subprocessBody env code language config).2.runSpawned := by
  unfold execWithSubprocess
  repeat' split
  all_goals simp_all

/-- Claim C1, counterexample: on a validated Python request whose child
process completes with exit code 1 (no timeout), `execute_code` reports
status `error`, not `runtime_error` — the source classifies every non-zero
run exit as `'error'` (`code_executor.py:269`); no execution path produces
`runtime_error`. -/
theorem c1_counterexample :
    envSample.runProc = .completed 1 "" "boom" ∧ (1 : Int) ≠ 0 ∧
    (execute_code ⟨30, 512⟩ envSample "print(1+1)" "python" "").1.status ≠ "runtime_error" ∧
    (execute_code ⟨30, 512⟩ envSample "print(1+1)" "python" "").1.status = "error" ∧
    (execute_code ⟨30, 512⟩ envSample "print(1+1)" "python" "").1.error = "boom" := by
  refine ⟨rfl, by decide, ?_, ?_, ?_⟩ <;> decide

/-- Claim C1, amended: for every execution request that passes validation
and whose run phase terminates without a timeout, if the child process exits
with a non-zero exit code then `execute_code` returns a result whose status
is `error` (not `runtime_error`) carrying the captured stderr. -/
theorem c1_nonzero_exit_reported_as_error (ex : CodeExecutor) (env : Env)
    (code language input_data dir out err : String) (config : LanguageConfig) (rc : Int)
    (hcfg : language_config (pyLower language) = some config)
    (hval : (validate_code_inner code (pyLower language)).fst = true)
    (hmk : env.mkdtemp = .ok dir)
    (hwr : env.writeFile = .ok ())
    (hjava : pyLower language = "java" → ∃ cn, javaPublicClass code = some cn)
    (hcomp : config.needs_compile = true → ∃ co ce, env.compileProc = .completed 0 co ce)
    (hrun : env.runProc = .completed rc out err)
    (hrc : rc ≠ 0) :
    (execute_code ex env code language input_data).1.status = "error" ∧
    (execute_code ex env code language input_data).1.error = err := by
  rw [execute_code_valid ex env code language input_data config hcfg hval]
  have hb := subprocessBody_run env code (pyLower language) config dir out err rc
    hmk hwr hjava hcomp hrun
  rw [execWithSubprocess_result, hb.1]
  simp [hrc]

/-- Claim C1, witness: the amended theorem applied to a concrete Python
request whose run exits with code 1 and stderr `boom`. -/
theorem c1_witness :
    (execute_code ⟨30, 512⟩ envSample "print(1+1)" "python" "").1.status = "error" ∧
    (execute_code ⟨30, 512⟩ envSample "print(1+1)" "python" "").1.error = "boom" :=
  c1_nonzero_exit_reported_as_error ⟨30, 512⟩ envSample "print(1+1)" "python" ""
    "/tmp/workspace" "" "boom" pythonConfig 1
    (by decide) (by decide) rfl rfl
    (fun h => absurd h (by decide)) (fun h => absurd h (by decide)) rfl (by decide)

/-- Claim C2: for every request that reaches workspace creation (the
language resolves, validation passes, and `mkdtemp` succeeds), the
workspace directory no longer exists when `execute_code` returns — over
every oracle, hence on every control-flow exit: success, the Java
no-public-class failure, write failure, compilation error, runtime error,
timeout, and any raised exception — provided the `rmtree` primitive itself
succeeds; and the cleanup step never alters the returned result (its own
failure is swallowed), so cleanup never raises out of `execute`. -/
theorem c2_workspace_always_removed (ex : CodeExecutor) (env : Env)
    (code language input_data dir : String) (config : LanguageConfig)
    (hcfg : language_config (pyLower language) = some config)
    (hval : (validate_code_inner code (pyLower language)).fst = true)
    (hmk : env.mkdtemp = .ok dir)
    (hrm : env.rmtreeOk = true) :
    (execute_code ex env code language input_data).2.dirCreated = true ∧
    (execute_code ex env code language input_data).2.dirExists = false ∧
    (∀ b : Bool, (execute_code ex { env with rmtreeOk := b } code language input_data).1 =
      (execute_code ex env code language input_data).1) := by
  rw [execute_code_valid ex env code language input_data config hcfg hval]
  obtain ⟨h1, h2⟩ := execWithSubprocess_rmtree_clean ex env code (pyLower language) config dir hmk hrm
  refine ⟨h1, h2, ?_⟩
  intro b
  rw [execute_code_valid ex { env with rmtreeOk := b } code language input_data config hcfg hval]
  exact execWithSubprocess_result_ignores_rmtree ex env code (pyLower language) config b

/-- Claim C2, witness: concrete Python request; the workspace is created
and gone at return, and the result is unchanged when `rmtree` fails. -/
theorem c2_witness :
    (execute_code ⟨30, 512⟩ envSample "print(1+1)" "python" "").2.dirCreated = true ∧
    (execute_code ⟨30, 512⟩ envSample "print(1+1)" "python" "").2.dirExists = false ∧
    (execute_code ⟨30, 512⟩ { envSample with rmtreeOk := false } "print(1+1)" "python" "").1 =
      (execute_code ⟨30, 512⟩ envSample "print(1+1)" "python" "").1 := by
  have h := c2_workspace_always_removed ⟨30, 512⟩ envSample "print(1+1)" "python" ""
    "/tmp/workspace" pythonConfig (by decide) (by decide) rfl rfl
  exact ⟨h.1, h.2.1, h.2.2 false⟩

/-- Claim C3: for every input and every outcome of the external effects
(validation trouble, file-write fault, spawn fault, child fault, timeout),
`execute_code` returns a well-formed result — it is a total function into
`ExecResult`, so no exception escapes — whose status is drawn from the
closed enumeration. -/
theorem c3_result_always_wellformed (ex : CodeExecutor) (env : Env)
    (code language input_data : String) :
    (execute_code ex env code language input_data).1.status ∈
      (["success", "compilation_error", "runtime_error", "timeout", "validation_error",
        "error"] : List String) := by
  rcases hcfg : language_config (pyLower language) with _ | config
  · simp [execute_code, hcfg]
  · rcases hb : (validate_code_inner code (pyLower language)).fst with _ | _
    · simp [execute_code, hcfg, hb]
    · rw [execute_code_valid ex env code language input_data config hcfg hb]
      have h := execWithSubprocess_status ex env code (pyLower language) config
      simp only [List.mem_cons, List.not_mem_nil, or_false] at h ⊢
      tauto

/-- Claim C4: for every request on which the static validator reports a
violation, `execute_code` returns status `validation_error` carrying the
violation message, and no workspace is created and no process (compile or
run) is spawned. -/
theorem c4_validation_rejects_before_spawn (ex : CodeExecutor) (env : Env)
    (code language input_data msg : String) (config : LanguageConfig)
    (hcfg : language_config (pyLower language) = some config)
    (hval : validate_code_inner code (pyLower language) = (false, msg)) :
    (execute_code ex env code language input_data).1.status = "validation_error" ∧
    (execute_code ex env code language input_data).1.error = msg ∧
    (execute_code ex env code language input_data).2.dirCreated = false ∧
    (execute_code ex env code language input_data).2.compileSpawned = false ∧
    (execute_code ex env code language input_data).2.runSpawned = false := by
  simp [execute_code, hcfg, hval]

/-- Claim C4, witness: the spec scenario — Python source
`import os; os.system('ls')` yields `validation_error` with message
`Import of os not allowed` and no directory or process. -/
theorem c4_witness :
    (execute_code ⟨30, 512⟩ envSample "import os; os.system('ls')" "python" "").1.status =
      "validation_error" ∧
    (execute_code ⟨30, 512⟩ envSample "import os; os.system('ls')" "python" "").1.error =
      "Import of os not allowed" ∧
    (execute_code ⟨30, 512⟩ envSample "import os; os.system('ls')" "python" "").2.dirCreated = false ∧
    (execute_code ⟨30, 512⟩ envSample "import os; os.system('ls')" "python" "").2.compileSpawned = false ∧
    (execute_code ⟨30, 512⟩ envSample "import os; os.system('ls')" "python" "").2.runSpawned = false :=
  c4_validation_rejects_before_spawn ⟨30, 512⟩ envSample "import os; os.system('ls')" "python" ""
    "Import of os not allowed" pythonConfig (by decide) (by decide)

/-- Claim C5: for every compiled-language request (`needs_compile`), if
the compiler exits non-zero then `execute_code` returns status
`compilation_error` whose error text is `Compilation error: ` followed by —
and hence contains — the compiler stderr, and the run phase is never
spawned. -/
theorem c5_compile_error_skips_run (ex : CodeExecutor) (env : Env)
    (code language input_data dir cout cerr : String) (config : LanguageConfig) (rc : Int)
    (hcfg : language_config (pyLower language) = some config)
    (hval : (validate_code_inner code (pyLower language)).fst = true)
    (hmk : env.mkdtemp = .ok dir)
    (hwr : env.writeFile = .ok ())
    (hjava : pyLower language = "java" → ∃ cn, javaPublicClass code = some cn)
    (hnc : config.needs_compile = true)
    (hcp : env.compileProc = .completed rc cout cerr)
    (hrc : rc ≠ 0) :
    (execute_code ex env code language input_data).1.status = "compilation_error" ∧
    (execute_code ex env code language input_data).1.error = "Compilation error: " ++ cerr ∧
    strContains (execute_code ex env code language input_data).1.error cerr = true ∧
    (execute_code ex env code language input_data).2.runSpawned = false := by
  rw [execute_code_valid ex env code language input_data config hcfg hval]
  have hb := subprocessBody_compile_fail env code (pyLower language) config dir cout cerr rc
    hmk hwr hjava hnc hcp hrc
  have hres : (execWithSubprocess ex env code (pyLower language) config).1 =
      { output := "", error := "Compilation error: " ++ cerr,
        execution_time := env.tCompileFail, status := "compilation_error" } := by
    rw [execWithSubprocess_result, hb.1]
  refine ⟨by rw [hres], by rw [hres], ?_, ?_⟩
  · rw [hres]
    exact strContains_append "Compilation error: " cerr
  · rw [execWithSubprocess_keeps_runSpawned]
    exact hb.2.1

/-- Claim C5, witness: a concrete C++ request whose compiler exits 1 with
a diagnostic; result is `compilation_error` and the run never happens. -/
theorem c5_witness :
    (execute_code ⟨30, 512⟩ envCompileFail "int main() { return 0 }" "cpp" "").1.status =
      "compilation_error" ∧
    (execute_code ⟨30, 512⟩ envCompileFail "int main() { return 0 }" "cpp" "").1.error =
      "Compilation error: error: expected semicolon" ∧
    strContains (execute_code ⟨30, 512⟩ envCompileFail "int main() { return 0 }" "cpp" "").1.error
      "error: expected semicolon" = true ∧
    (execute_code ⟨30, 512⟩ envCompileFail "int main() { return 0 }" "cpp" "").2.runSpawned = false :=
  c5_compile_error_skips_run ⟨30, 512⟩ envCompileFail "int main() { return 0 }" "cpp" ""
    "/tmp/workspace" "" "error: expected semicolon" cppConfig 1
    (by decide) (by decide) rfl rfl (fun h => absurd h (by decide)) (by decide) rfl (by decide)

/-- Claim C6: for every request whose compile or run phase exceeds the
wall-clock limit (`subprocess.TimeoutExpired`), `execute_code` returns a
terminal result with status `timeout` and `execution_time` pinned exactly
to the configured limit `self.timeout`; the timeout is returned, never
retried and never raised. -/
theorem c6_timeout_pinned_to_limit (ex : CodeExecutor) (env : Env)
    (code language input_data dir : String) (config : LanguageConfig)
    (hcfg : language_config (pyLower language) = some config)
    (hval : (validate_code_inner code (pyLower language)).fst = true)
    (hmk : env.mkdtemp = .ok dir)
    (hwr : env.writeFile = .ok ())
    (hjava : pyLower language = "java" → ∃ cn, javaPublicClass code = some cn)
    (htmo : (config.needs_compile = true ∧ env.compileProc = .timedOut) ∨
            (env.runProc = .timedOut ∧
             (config.needs_compile = true → ∃ co ce, env.compileProc = .completed 0 co ce))) :
    (execute_code ex env code language input_data).1.status = "timeout" ∧
    (execute_code ex env code language input_data).1.execution_time = ex.timeout := by
  rw [execute_code_valid ex env code language input_data config hcfg hval]
  have hb := subprocessBody_timeout env code (pyLower language) config dir hmk hwr hjava htmo
  rw [execWithSubprocess_result, hb]
  exact ⟨rfl, rfl⟩

/-- Claim C6, witness: a Python request timing out under a 2-second limit
reports status `timeout` with `execution_time = 2`. -/
theorem c6_witness :
    (execute_code ⟨2, 512⟩ envTimeout "while True: pass" "python" "").1.status = "timeout" ∧
    (execute_code ⟨2, 512⟩ envTimeout "while True: pass" "python" "").1.execution_time = 2 :=
  c6_timeout_pinned_to_limit ⟨2, 512⟩ envTimeout "while True: pass" "python" "" "/tmp/workspace"
    pythonConfig (by decide) (by decide) rfl rfl (fun h => absurd h (by decide))
    (Or.inr ⟨rfl, fun h => absurd h (by decide)⟩)

/-- Claim C7: for every Java request, the source file written into the
workspace is named `<class>.java` after the public class extracted by the
`public class` pattern; and when no such declaration exists the request
fails with the `No public class found in Java code` error before any file
is written. -/
theorem c7_java_filename_from_public_class (ex : CodeExecutor) (env : Env)
    (code input_data dir : String)
    (hval : (validate_code_inner code "java").fst = true)
    (hmk : env.mkdtemp = .ok dir) :
    (∀ cn, javaPublicClass code = some cn → env.writeFile = .ok () →
      (execute_code ex env code "java" input_data).2.writtenFile =
        some (dir ++ "/" ++ cn ++ ".java")) ∧
    (javaPublicClass code = none →
      (execute_code ex env code "java" input_data).1.status = "error" ∧
      (execute_code ex env code "java" input_data).1.error = "No public class found in Java code" ∧
      (execute_code ex env code "java" input_data).2.writtenFile = none) := by
  have hj : pyLower "java" = "java" := by decide
  have hcfg : language_config (pyLower "java") = some javaConfig := by decide
  have hval' : (validate_code_inner code (pyLower "java")).fst = true := by rw [hj]; exact hval
  rw [execute_code_valid ex env code "java" input_data javaConfig hcfg hval', hj]
  obtain ⟨ha, hb⟩ := subprocessBody_java env code javaConfig dir hmk
  constructor
  · intro cn hcn hwr
    rw [execWithSubprocess_keeps_writtenFile]
    exact ha cn hcn hwr
  · intro hnone
    obtain ⟨h1, h2⟩ := hb hnone
    refine ⟨?_, ?_, ?_⟩
    · rw [execWithSubprocess_result, h1]
    · rw [execWithSubprocess_result, h1]
    · rw [execWithSubprocess_keeps_writtenFile]
      exact h2

/-- Claim C7, witness: `public class Hello {}` is written as
`Hello.java`; `class Hello {}` fails with the no-public-class error and no
file is written. -/
theorem c7_witness :
    (execute_code ⟨30, 512⟩ envSample "public class Hello {}" "java" "").2.writtenFile =
      some "/tmp/workspace/Hello.java" ∧
    (execute_code ⟨30, 512⟩ envSample "class Hello {}" "java" "").1.status = "error" ∧
    (execute_code ⟨30, 512⟩ envSample "class Hello {}" "java" "").1.error =
      "No public class found in Java code" ∧
    (execute_code ⟨30, 512⟩ envSample "class Hello {}" "java" "").2.writtenFile = none := by
  constructor
  · exact (c7_java_filename_from_public_class ⟨30, 512⟩ envSample "public class Hello {}" ""
      "/tmp/workspace" (by decide) rfl).1 "Hello" (by decide) rfl
  · exact (c7_java_filename_from_public_class ⟨30, 512⟩ envSample "class Hello {}" ""
      "/tmp/workspace" (by decide) rfl).2 (by decide)

/-- Claim C8: language lookup is case-insensitive — `execute_code`
behaves identically on a name and its lowercase form — and for every name
whose lowercase form is not in the registry, the unsupported-language
condition is reported immediately with no workspace created and no process
spawned. -/
theorem c8_case_insensitive_lookup (ex : CodeExecutor) (env : Env)
    (code language input_data : String) :
    execute_code ex env code language input_data =
      execute_code ex env code (pyLower language) input_data ∧
    (language_config (pyLower language) = none →
      (execute_code ex env code language input_data).1.status = "error" ∧
      (execute_code ex env code language input_data).1.error =
        "Unsupported language: " ++ pyLower language ∧
      (execute_code ex env code language input_data).2.dirCreated = false ∧
      (execute_code ex env code language input_data).2.compileSpawned = false ∧
      (execute_code ex env code language input_data).2.runSpawned = false) := by
  constructor
  · unfold execute_code
    rw [pyLowerIdem]
  · intro hn
    simp [execute_code, hn]

/-- Claim C8, witness: `PyThOn` behaves as its lowercase form, and the
unregistered name `GOLANG` is rejected immediately with status `error` and
no spawn. -/
theorem c8_witness :
    execute_code ⟨30, 512⟩ envSample "print(1+1)" "PyThOn" "" =
      execute_code ⟨30, 512⟩ envSample "print(1+1)" (pyLower "PyThOn") "" ∧
    (execute_code ⟨30, 512⟩ envSample "x" "GOLANG" "").1.status = "error" ∧
    (execute_code ⟨30, 512⟩ envSample "x" "GOLANG" "").2.runSpawned = false :=
  ⟨(c8_case_insensitive_lookup ⟨30, 512⟩ envSample "print(1+1)" "PyThOn" "").1,
   ((c8_case_insensitive_lookup ⟨30, 512⟩ envSample "x" "GOLANG" "").2 (by decide)).1,
   ((c8_case_insensitive_lookup ⟨30, 512⟩ envSample "x" "GOLANG" "").2 (by decide)).2.2.2.2⟩

/-- Claim C9: the validator's allow-list semantics differ by family —
a Java source validates exactly when every extracted import has its dotted
path prefixed by some allowed package, while a C/C++ source validates
exactly when every extracted `#include` header is exactly a member of the
allow-list. -/
theorem c9_allowlist_semantics :
    (∀ code, (validate_code_inner code "java").fst = true ↔
      ∀ imp ∈ javaImports code,
        ∃ pkg ∈ javaConfig.allowed_packages, pkg.data <+: imp.data) ∧
    (∀ code, (validate_code_inner code "cpp").fst = true ↔
      ∀ inc ∈ cIncludes code, inc ∈ cppConfig.allowed_headers) ∧
    (∀ code, (validate_code_inner code "c").fst = true ↔
      ∀ inc ∈ cIncludes code, inc ∈ cConfig.allowed_headers) := by
  refine ⟨fun code => ?_, fun code => ?_, fun code => ?_⟩
  · simp only [validate_code_inner, language_config]
    rw [if_neg (by decide), if_neg (by decide), if_pos (by decide)]
    rcases hf : List.find?
        (fun imp => !javaConfig.allowed_packages.any fun pkg => pkg.data.isPrefixOf imp.data)
        (javaImports code) with _ | x
    · simp only [hf]
      rw [List.find?_eq_none] at hf
      constructor
      · intro _ imp hmem
        have h2 := hf imp hmem
        simpa only [Bool.not_eq_true', Bool.not_eq_false, List.any_eq_true,
          List.isPrefixOf_iff_prefix] using h2
      · intro _
        trivial
    · have hx := List.find?_some hf
      have hmem := List.mem_of_find?_eq_some hf
      simp only [Bool.not_eq_true', List.any_eq_false, List.isPrefixOf_iff_prefix] at hx
      simp only [hf]
      constructor
      · intro habs
        simp at habs
      · intro hall
        exfalso
        obtain ⟨pkg, hp, hpre⟩ := hall x hmem
        exact hx pkg hp hpre
  · simp only [validate_code_inner, language_config]
    rw [if_neg (by decide), if_neg (by decide), if_neg (by decide), if_pos (by decide)]
    rcases hf : List.find? (fun inc => !cppConfig.allowed_headers.contains inc)
        (cIncludes code) with _ | x
    · simp only [hf]
      rw [List.find?_eq_none] at hf
      constructor
      · intro _ inc hmem
        have h2 := hf inc hmem
        simp only [Bool.not_eq_true', Bool.not_eq_false] at h2
        exact List.elem_iff.mp h2
      · intro _
        trivial
    · have hx := List.find?_some hf
      have hmem := List.mem_of_find?_eq_some hf
      simp only [Bool.not_eq_true'] at hx
      simp only [hf]
      constructor
      · intro habs
        simp at habs
      · intro hall
        exfalso
        have h2 : cppConfig.allowed_headers.contains x = true := List.elem_iff.mpr (hall x hmem)
        rw [hx] at h2
        cases h2
  · simp only [validate_code_inner, language_config]
    rw [if_neg (by decide), if_neg (by decide), if_neg (by decide), if_pos (by decide)]
    rcases hf : List.find? (fun inc => !cConfig.allowed_headers.contains inc)
        (cIncludes code) with _ | x
    · simp only [hf]
      rw [List.find?_eq_none] at hf
      constructor
      · intro _ inc hmem
        have h2 := hf inc hmem
        simp only [Bool.not_eq_true', Bool.not_eq_false] at h2
        exact List.elem_iff.mp h2
      · intro _
        trivial
    · have hx := List.find?_some hf
      have hmem := List.mem_of_find?_eq_some hf
      simp only [Bool.not_eq_true'] at hx
      simp only [hf]
      constructor
      · intro habs
        simp at habs
      · intro hall
        exfalso
        have h2 : cConfig.allowed_headers.contains x = true := List.elem_iff.mpr (hall x hmem)
        rw [hx] at h2
        cases h2

/-- Claim C9, witness: `java.util.List` is accepted by dotted-path
prefixing, `iostream` by exact membership, and `windows.h` is rejected for
C because exact membership fails. -/
theorem c9_witness :
    (validate_code_inner "import java.util.List;" "java").fst = true ∧
    (validate_code_inner "#include <iostream>" "cpp").fst = true ∧
    (validate_code_inner "#include <windows.h>" "c").fst ≠ true :=
  ⟨(c9_allowlist_semantics.1 "import java.util.List;").mpr (by decide),
   (c9_allowlist_semantics.2.1 "#include <iostream>").mpr (by decide),
   fun h => by
     have h2 := (c9_allowlist_semantics.2.2 "#include <windows.h>").mp h
     exact absurd (h2 "windows.h" (by decide)) (by decide)⟩

/-- Claim C10: for `go`, `rust`, `ruby` and `php`, `_validate_code`
returns valid (`(true, "")`) for every source string — no import, package,
require or dangerous-call screening exists for these languages — so every
such request is handed to the subprocess path unscreened, even though the
registry lists non-empty allowed packages/crates/requires for them. -/
theorem c10_unscreened_languages :
    (∀ code, validate_code_inner code "go" = (true, "") ∧
             validate_code_inner code "rust" = (true, "") ∧
             validate_code_inner code "ruby" = (true, "") ∧
             validate_code_inner code "php" = (true, "")) ∧
    (∀ ex env code input_data, execute_code ex env code "go" input_data =
      execWithSubprocess ex env code "go" goConfig) ∧
    (∀ ex env code input_data, execute_code ex env code "rust" input_data =
      execWithSubprocess ex env code "rust" rustConfig) ∧
    (∀ ex env code input_data, execute_code ex env code "ruby" input_data =
      execWithSubprocess ex env code "ruby" rubyConfig) ∧
    (∀ ex env code input_data, execute_code ex env code "php" input_data =
      execWithSubprocess ex env code "php" phpConfig) ∧
    goConfig.allowed_packages ≠ [] ∧ rustConfig.allowed_crates ≠ [] ∧
    rubyConfig.allowed_requires ≠ [] ∧ phpConfig.allowed_extensions ≠ [] :=
  ⟨fun code => ⟨rfl, rfl, rfl, rfl⟩,
   fun ex env code input_data => rfl,
   fun ex env code input_data => rfl,
   fun ex env code input_data => rfl,
   fun ex env code input_data => rfl,
   by decide, by decide, by decide, by decide⟩

end DevSensei
